import Mathlib

/-
Verification of the HyperSalineBuffer core
(`buffer_web/app.py`) against its design document.

The numeric code is embedded shallowly over ℚ: Python floats become exact
rationals, every formula is transcribed operation for operation from the
source.  Fixed-decimal *formatting* of output values (f-strings, `round`)
is modelled by `roundTo` (round to n decimal places); Python's `round`
uses banker's rounding on floats while `roundTo` rounds half away from
zero, but no claim below depends on the tie-breaking direction.
-/

namespace HyperSalineBuffer

/-! ## Module-level constants (app.py lines 33-58)

Atomic weights hidden!Q3:Q11 and salt molar masses hidden!J3:J13.
`CO2_LOG = math.log10(0.000426)` is an irrational constant that only ever
appears verbatim inside the generated script text; it is not modelled. -/

def Q3 : ℚ := 22.989769   -- Na
def Q4 : ℚ := 39.0983     -- K
def Q5 : ℚ := 6.941       -- Li
def Q6 : ℚ := 24.305      -- Mg
def Q7 : ℚ := 40.078      -- Ca
def Q8 : ℚ := 32.02       -- S (SO4 reported as mg-S/L)
def Q9 : ℚ := 35.453      -- Cl
def Q10 : ℚ := 18.01528   -- H2O
def Q11 : ℚ := 1.0        -- H

def J3 : ℚ := 95.211            -- MgCl2 anhydrous
def J4 : ℚ := J3 + 6 * Q10      -- MgCl2·6H2O
def J6 : ℚ := 110.984           -- CaCl2 anhydrous
def J7 : ℚ := J6 + 2 * Q10      -- CaCl2·2H2O
def J9 : ℚ := 120.366           -- MgSO4 anhydrous
def J10 : ℚ := J9 + 7 * Q10     -- MgSO4·7H2O
def J12 : ℚ := 142.04           -- Na2SO4 anhydrous
def J13 : ℚ := 322.2            -- Na2SO4·10H2O (literal constant in the code)
def D14 : ℚ := 42.394           -- LiCl (always anhydrous)
def D16 : ℚ := 58.44            -- NaCl (always anhydrous)
def D17 : ℚ := 74.55            -- KCl  (always anhydrous)

def RF : ℚ := 200               -- hidden!C23, REACTION 1 normalization factor

/-- Python `round(q, n)`: round `q` to `n` decimal places. -/
def roundTo (n : ℕ) (q : ℚ) : ℚ := (round (q * 10 ^ n) : ℚ) / 10 ^ n

/-! ## Unit Converter -/

/-- `calc_water_mass(density, tds, tds_unit)` (app.py lines 68-72):
`(1000*density - tds)/1000` when `tds_unit == 'g/L'`, else
`(1000*density - tds*density)/1000`. -/
def calc_water_mass (density tds : ℚ) (tds_unit : String) : ℚ :=
  if tds_unit = "g/L" then (1000 * density - tds) / 1000
  else (1000 * density - tds * density) / 1000

/-- `to_mmol_kgw(mg_per_L, MW, water_mass)` (app.py lines 81-82):
`mg_per_L / water_mass / MW`. -/
def to_mmol_kgw (mg_per_L MW water_mass : ℚ) : ℚ :=
  mg_per_L / water_mass / MW

/-! ## Data model -/

/-- Ion molalities in mmol/kgw (hidden!C3:C8), keyed by ion name in the
Python dict `ion_mmol_kgw`. -/
structure IonMolality where
  Na : ℚ
  K : ℚ
  Li : ℚ
  Mg : ℚ
  Ca : ℚ
  SO4 : ℚ

/-- The hydration-choice dict after `parse_payload` applied its `.get`
defaults: one string per hydration-sensitive salt
('Anhydrous' or the hydrate name). -/
structure Hydration where
  MgCl2 : String
  CaCl2 : String
  MgSO4 : String
  Na2SO4 : String

/-- The seven salt molalities hidden!C12:C18 in mmol/kgw, before any
rounding (app.py lines 134-141 and the identical lines 230-236). -/
structure SaltMolalities where
  C12 : ℚ   -- MgCl2
  C13 : ℚ   -- CaCl2
  C14 : ℚ   -- LiCl
  C15 : ℚ   -- MgSO4
  C16 : ℚ   -- NaCl
  C17 : ℚ   -- KCl
  C18 : ℚ   -- Na2SO4
deriving DecidableEq

/-! ## Recipe Builder (app.py `build_recipe`, lines 115-195) -/

/-- The path flags and salt-molality block of `build_recipe`
(app.py lines 130-141), transcribed literally:
`A18 = 1 if C8 > C6 else 0`, `A15 = 0 if A18 == 1 else 1`, then the
seven `max(0.0, ...)` lines. -/
def recipe_salts (ion : IonMolality) : SaltMolalities :=
  let C3 := ion.Na
  let C4 := ion.K
  let C5 := ion.Li
  let C6 := ion.Mg
  let C7 := ion.Ca
  let C8 := ion.SO4
  let A18 : ℚ := if C8 > C6 then 1 else 0
  let A15 : ℚ := if A18 = 1 then 0 else 1
  { C12 := max 0 (C6 - C8 * A15)
    C13 := max 0 C7
    C14 := max 0 C5
    C15 := max 0 C8 * A15
    C16 := max 0 (C3 - 2 * C8 * A18)
    C17 := max 0 C4
    C18 := max 0 C8 * A18 }

/-- `is_anhydrous` (app.py lines 149-150): exact string match against
'Anhydrous'.  The `.get(key, 'Anhydrous')` default is already folded into
the total `Hydration` record. -/
def is_anhydrous (s : String) : Bool := s = "Anhydrous"

/-- hidden!D12: MgCl2 molar mass selected by hydration (app.py line 152). -/
def D12_sel (h : Hydration) : ℚ := if is_anhydrous h.MgCl2 then J3 else J4

/-- hidden!D13: CaCl2 molar mass selected by hydration (app.py line 153). -/
def D13_sel (h : Hydration) : ℚ := if is_anhydrous h.CaCl2 then J6 else J7

/-- hidden!D15: MgSO4 molar mass selected by hydration (app.py line 154). -/
def D15_sel (h : Hydration) : ℚ := if is_anhydrous h.MgSO4 then J9 else J10

/-- hidden!D18: Na2SO4 molar mass selected by hydration (app.py line 155). -/
def D18_sel (h : Hydration) : ℚ := if is_anhydrous h.Na2SO4 then J12 else J13

/-- One output line of the recipe: rounded molality, grams, molar mass
and the hydration-form label. -/
structure SaltEntry where
  mmol : ℚ
  g : ℚ
  mw : ℚ
  form : String

/-- The full `build_recipe` return value (app.py lines 186-195). -/
structure Recipe where
  mgcl2 : SaltEntry
  cacl2 : SaltEntry
  licl : SaltEntry
  mgso4 : SaltEntry
  nacl : SaltEntry
  kcl : SaltEntry
  na2so4 : SaltEntry
  h2o : SaltEntry

/-- `build_recipe(ion_mmol_kgw, hydration)` (app.py lines 115-195):
salt molalities, hydration-dependent molar masses, grams per kgw
(`E = D*C/1000`), the hydration-water budget hidden!I17, and the rounded
output record. -/
def build_recipe (ion : IonMolality) (hyd : Hydration) : Recipe :=
  let s := recipe_salts ion
  let D12 := D12_sel hyd
  let D13 := D13_sel hyd
  let D15 := D15_sel hyd
  let D18 := D18_sel hyd
  let E12 := D12 * s.C12 / 1000
  let E13 := D13 * s.C13 / 1000
  let E14 := D14 * s.C14 / 1000
  let E15 := D15 * s.C15 / 1000
  let E16 := D16 * s.C16 / 1000
  let E17 := D17 * s.C17 / 1000
  let E18 := D18 * s.C18 / 1000
  let J18 : ℚ := if is_anhydrous hyd.MgCl2 then 0 else 1
  let J19 : ℚ := if is_anhydrous hyd.CaCl2 then 0 else 1
  let J20 : ℚ := if is_anhydrous hyd.MgSO4 then 0 else 1
  let J21 : ℚ := if is_anhydrous hyd.Na2SO4 then 0 else 1
  let I18 := s.C12 * 6 * Q10 / 1000
  let I19 := s.C13 * 2 * Q10 / 1000
  let I20 := s.C15 * 7 * Q10 / 1000
  let I21 := s.C18 * 10 * Q10 / 1000
  let I16 : ℚ := 1000
  let I17 := I16 - J18 * I18 - J19 * I19 - J20 * I20 - J21 * I21
  let water_g := max 0 I17
  let water_mmol := water_g / Q10
  { mgcl2 := ⟨roundTo 4 s.C12, roundTo 4 E12, roundTo 3 D12, hyd.MgCl2⟩
    cacl2 := ⟨roundTo 4 s.C13, roundTo 4 E13, roundTo 3 D13, hyd.CaCl2⟩
    licl := ⟨roundTo 4 s.C14, roundTo 4 E14, roundTo 3 D14, "Anhydrous"⟩
    mgso4 := ⟨roundTo 4 s.C15, roundTo 4 E15, roundTo 3 D15, hyd.MgSO4⟩
    nacl := ⟨roundTo 4 s.C16, roundTo 4 E16, roundTo 3 D16, "Anhydrous"⟩
    kcl := ⟨roundTo 4 s.C17, roundTo 4 E17, roundTo 3 D17, "Anhydrous"⟩
    na2so4 := ⟨roundTo 4 s.C18, roundTo 4 E18, roundTo 3 D18, hyd.Na2SO4⟩
    h2o := ⟨roundTo 2 water_mmol, roundTo 2 water_g, roundTo 3 Q10, "liquid"⟩ }

/-! ## Script Generator (app.py `build_phreeqc_input`, lines 219-319)

The function's numeric content: the duplicated salt-molality block, the
acid/base normalizations hidden!M6..M9, the diluent-water ratios
input!C40/C49, the fixed step count, and the per-salt REACTION 1 amounts
`val / RF`.  The surrounding literal script text (solver preamble,
`SAVE`/`END`/`USE` boundaries, fixed-decimal f-string formatting) is
presentation and is not modelled; the structure below carries exactly the
numbers the f-strings interpolate. -/

/-- The salt-molality block duplicated inside `build_phreeqc_input`
(app.py lines 227-236), transcribed independently of `recipe_salts`. -/
def phreeqc_salts (ion : IonMolality) : SaltMolalities :=
  let C3 := ion.Na
  let C4 := ion.K
  let C5 := ion.Li
  let C6 := ion.Mg
  let C7 := ion.Ca
  let C8 := ion.SO4
  let A18 : ℚ := if C8 > C6 then 1 else 0
  let A15 : ℚ := if A18 = 1 then 0 else 1
  { C12 := max 0 (C6 - C8 * A15)
    C13 := max 0 C7
    C14 := max 0 C5
    C15 := max 0 C8 * A15
    C16 := max 0 (C3 - 2 * C8 * A18)
    C17 := max 0 C4
    C18 := max 0 C8 * A18 }

/-- The titration-parameter dict `params` (data!J15:J19).  The step-size
parameter J20 of the Excel original is not among the inputs: the code
never reads it. -/
structure PhreeqcParams where
  H3BO3_conc : ℚ
  H3BO3_vol : ℚ
  sample_vol : ℚ
  NaOH_conc : ℚ
  NaOH_vol : ℚ

/-- The numeric content of the generated script: REACTION 1 amounts
(each `salt_mmol_kgw / RF`), the acid block (REACTION 2, H3BO3), and the
base block (REACTION 2, NaOH). -/
structure PhreeqcScript where
  mgcl2_amt : ℚ
  cacl2_amt : ℚ
  licl_amt : ℚ
  mgso4_amt : ℚ
  nacl_amt : ℚ
  kcl_amt : ℚ
  na2so4_amt : ℚ
  acid_amount : ℚ      -- hidden!M7, interpolated as {M7:.8f}
  acid_h2o : ℚ         -- input!C40 = 55.5556 / H3BO3_conc
  acid_steps : ℕ       -- literal 'in 1 steps' in the acid block
  base_amount : ℚ      -- hidden!M8, interpolated as {M8:.8f}
  base_h2o : ℚ         -- input!C49 = 55.5556 / NaOH_conc
  base_steps : ℕ       -- 'in {n_steps} steps' in the base block

/-- `build_phreeqc_input(ion_mmol_kgw, params, water_mass)`
(app.py lines 219-319): returns the script content and `n_steps = 20`. -/
def build_phreeqc_input (ion : IonMolality) (params : PhreeqcParams)
    (water_mass : ℚ) : PhreeqcScript × ℕ :=
  let s := phreeqc_salts ion
  let kgw_sample := params.sample_vol * water_mass / 1000
  let M6 := params.H3BO3_conc * params.H3BO3_vol
  let M7 := M6 / kgw_sample
  let M9 := params.NaOH_conc * params.NaOH_vol
  let M8 := M9 / kgw_sample
  let H3BO3_H2O := 55.5556 / params.H3BO3_conc
  let NaOH_H2O := 55.5556 / params.NaOH_conc
  let n_steps : ℕ := 20
  ({ mgcl2_amt := s.C12 / RF
     cacl2_amt := s.C13 / RF
     licl_amt := s.C14 / RF
     mgso4_amt := s.C15 / RF
     nacl_amt := s.C16 / RF
     kcl_amt := s.C17 / RF
     na2so4_amt := s.C18 / RF
     acid_amount := M7
     acid_h2o := H3BO3_H2O
     acid_steps := 1
     base_amount := M8
     base_h2o := NaOH_H2O
     base_steps := n_steps }, n_steps)

/-! ## Result Classifier (app.py `b4b3_ratio` and the `calculate` loop) -/

/-- The six boron-species molality columns a solver output row may carry
(dict keys `m_B(OH)3(mol/kgw)`, `m_B(OH)4-(mol/kgw)`,
`m_B3O3(OH)4-(mol/kgw)`, `m_B4O5(OH)4-2(mol/kgw)`, `m_MgB(OH)4+(mol/kgw)`,
`m_CaB(OH)4+(mol/kgw)`); `none` models an absent key, for which
`row.get(key, 0) or 0` yields 0. -/
structure BoronRow where
  bOH3 : Option ℚ
  bOH4 : Option ℚ
  b3o3 : Option ℚ
  b4o5 : Option ℚ
  mgb : Option ℚ
  cab : Option ℚ
deriving DecidableEq

/-- `b4b3_ratio(row)` (app.py lines 443-452): with the local letters of
the source, `num = M + P + Q + N + O + O`, `den = L + N + N + O + O`,
result `num / den` when `den > 1e-30` else `0.0`. -/
def b4b3_ratio (r : BoronRow) : ℚ :=
  let L := r.bOH3.getD 0
  let M := r.bOH4.getD 0
  let N := r.b3o3.getD 0
  let O := r.b4o5.getD 0
  let P := r.mgb.getD 0
  let Q := r.cab.getD 0
  let num := M + P + Q + N + O + O
  let den := L + N + N + O + O
  if den > 1e-30 then num / den else 0

/-- One solver output row as the classifier reads it: `row.get('state','')`,
`row.get('pH')` (`none` when the column is absent), and the boron columns. -/
structure OutRow where
  state : String
  pH : Option ℚ
  boron : BoronRow
deriving DecidableEq

/-- One emitted titration point (app.py lines 559-564). -/
structure TitrationPoint where
  v_naoh : ℚ
  pH : Option ℚ
  b4b3 : ℚ
deriving DecidableEq

/-- The dict appended per retained row (app.py lines 559-564):
`V_NaOH = naoh_vol`, `pH` rounded to 5 places when present,
`B4B3 = round(ratio, 7)`. -/
def mkPoint (v : ℚ) (r : OutRow) : TitrationPoint :=
  { v_naoh := v
    pH := r.pH.map (fun p => roundTo 5 p)
    b4b3 := roundTo 7 (b4b3_ratio r.boron) }

/-- The row loop of `calculate` (app.py lines 539-564) as a recursion on
the row list, carrying `react_count` and `naoh_vol`:
`i_soln` rows are skipped, the first two `react` rows are skipped, every
later `react` row advances `naoh_vol = round(naoh_vol + step_ml, 8)` and
emits a point; rows with any other state fall through the if/elif and are
skipped. -/
def classifyAux (step_ml : ℚ) : List OutRow → ℕ → ℚ → List TitrationPoint
  | [], _, _ => []
  | r :: rest, react_count, naoh_vol =>
    if r.state = "i_soln" then
      classifyAux step_ml rest react_count naoh_vol
    else if r.state = "react" then
      if react_count + 1 ≤ 2 then
        classifyAux step_ml rest (react_count + 1) naoh_vol
      else
        let v := roundTo 8 (naoh_vol + step_ml)
        mkPoint v r :: classifyAux step_ml rest (react_count + 1) v
    else
      classifyAux step_ml rest react_count naoh_vol

/-- The classifier entry point: counter and cumulative volume start at 0
(app.py lines 540-542), `step_ml = NaOH_vol / 20` (line 529). -/
def classify (step_ml : ℚ) (rows : List OutRow) : List TitrationPoint :=
  classifyAux step_ml rows 0 0

/-! ## Payload parsing (app.py `parse_payload` and the `calculate` route)

The request JSON is one flat dict; it is modelled as a partial map from
field name to rational for the numeric fields plus the string-valued
fields the code reads (`tds_unit` via `d['tds_unit']`, the four hydration
dropdowns via `d.get`).  `float(d[k])` on a missing key raises `KeyError`
in Python; the model returns `none`. -/

structure Payload where
  num : String → Option ℚ
  tds_unit : Option String
  hyd_MgCl2 : Option String
  hyd_CaCl2 : Option String
  hyd_MgSO4 : Option String
  hyd_Na2SO4 : Option String

/-- `parse_payload(d)` (app.py lines 458-483): water mass, the six ion
molalities, and the hydration dict with its `.get` defaults. -/
def parse_payload (d : Payload) : Option (ℚ × IonMolality × Hydration) := do
  let density ← d.num "density"
  let tds ← d.num "tds"
  let tds_unit ← d.tds_unit
  let wm := calc_water_mass density tds tds_unit
  let na ← d.num "Na"
  let k ← d.num "K"
  let li ← d.num "Li"
  let mg ← d.num "Mg"
  let ca ← d.num "Ca"
  let so4 ← d.num "SO4"
  let ion : IonMolality :=
    { Na := to_mmol_kgw na Q3 wm
      K := to_mmol_kgw k Q4 wm
      Li := to_mmol_kgw li Q5 wm
      Mg := to_mmol_kgw mg Q6 wm
      Ca := to_mmol_kgw ca Q7 wm
      SO4 := to_mmol_kgw so4 Q8 wm }
  let hyd : Hydration :=
    { MgCl2 := d.hyd_MgCl2.getD "Hexahydrate"
      CaCl2 := d.hyd_CaCl2.getD "Anhydrous"
      MgSO4 := d.hyd_MgSO4.getD "Heptahydrate"
      Na2SO4 := d.hyd_Na2SO4.getD "Anhydrous" }
  pure (wm, ion, hyd)

/-- The input-contract stage of the `calculate` route (app.py lines
508-525): `parse_payload`, then `float(d['B'])` and `float(d['Br'])` for
the ion display table, then the five titration parameters and the
optional `pH` (default 8.5), ending with the `build_phreeqc_input` call.
The subsequent solver invocation is the excluded external collaborator;
a `none` result models the route answering with a missing-field error
before any solver work. -/
def calculate_inputs (d : Payload) :
    Option (ℚ × IonMolality × ℚ × ℚ × ℚ × (PhreeqcScript × ℕ)) := do
  let (wm, ion, _hyd) ← parse_payload d
  let b ← d.num "B"
  let br ← d.num "Br"
  let ionB := to_mmol_kgw b 10.811 wm
  let ionBr := to_mmol_kgw br 79.904 wm
  let h3c ← d.num "H3BO3_conc"
  let h3v ← d.num "H3BO3_vol"
  let sv ← d.num "sample_vol"
  let nc ← d.num "NaOH_conc"
  let nv ← d.num "NaOH_vol"
  let ph := (d.num "pH").getD 8.5
  let params : PhreeqcParams :=
    { H3BO3_conc := h3c, H3BO3_vol := h3v, sample_vol := sv
      NaOH_conc := nc, NaOH_vol := nv }
  pure (wm, ion, ionB, ionBr, ph, build_phreeqc_input ion params wm)

/-! ## Spec-side definitions for the boron-ratio comparison -/

/-- The design document's numerator wording: `B(OH)4⁻ + MgB(OH)4⁺ +
CaB(OH)4⁺ + B3O3(OH)4⁻ + 2·B4O5(OH)4²⁻`. -/
def spec_b4b3_num (r : BoronRow) : ℚ :=
  r.bOH4.getD 0 + r.mgb.getD 0 + r.cab.getD 0 + r.b3o3.getD 0
    + 2 * r.b4o5.getD 0

/-- The design document's denominator wording: `B(OH)3 + 2·B3O3(OH)4⁻ +
2·B4O5(OH)4²⁻`. -/
def spec_b4b3_den (r : BoronRow) : ℚ :=
  r.bOH3.getD 0 + 2 * r.b3o3.getD 0 + 2 * r.b4o5.getD 0

/-! ## Concrete inputs used by witnesses and counterexamples -/

/-- All four hydration dropdowns set to the hydrated option. -/
def hydAllHydrated : Hydration :=
  { MgCl2 := "Hexahydrate", CaCl2 := "Dihydrate"
    MgSO4 := "Heptahydrate", Na2SO4 := "Decahydrate" }

/-- Witness ions for the MgSO4 path: SO4 = 1 ≤ Mg = 2. -/
def ionW1 : IonMolality := ⟨0, 0, 0, 2, 0, 1⟩

/-- Witness ions for the Na2SO4 path: Mg = 0 < SO4 = 3, Na = 1. -/
def ionW2 : IonMolality := ⟨1, 0, 0, 0, 0, 3⟩

/-- The fourteen required fields of the input contract. -/
def requiredKeys : List String :=
  ["density", "tds", "Na", "K", "Li", "Mg", "Ca", "SO4",
   "H3BO3_conc", "H3BO3_vol", "sample_vol", "NaOH_conc", "NaOH_vol"]

/-- A payload carrying every required field (value 1, `tds_unit = g/L`)
but neither `B` nor `Br`. -/
def payloadNoBBr : Payload :=
  { num := fun k => if k ∈ requiredKeys then some 1 else none
    tds_unit := some "g/L"
    hyd_MgCl2 := none, hyd_CaCl2 := none
    hyd_MgSO4 := none, hyd_Na2SO4 := none }

/-- The same payload with `B` and `Br` also present. -/
def payloadFull : Payload :=
  { num := fun k => if k ∈ requiredKeys ++ ["B", "Br"] then some 1 else none
    tds_unit := some "g/L"
    hyd_MgCl2 := none, hyd_CaCl2 := none
    hyd_MgSO4 := none, hyd_Na2SO4 := none }

/-! ## Claims -/

/-- Claim C1: salt-path exclusivity in the Recipe Builder.  For every
ion-molality input, when `SO4 > 0` and `SO4 ≤ Mg` the MgSO4 molality is
strictly positive and the Na2SO4 molality is exactly 0; when `SO4 > 0`
and `SO4 > Mg` the Na2SO4 molality is strictly positive and the MgSO4
molality is exactly 0; when `SO4 = 0` both are 0. -/
theorem c1_salt_path_exclusivity (ion : IonMolality) :
    (0 < ion.SO4 → ion.SO4 ≤ ion.Mg →
      0 < (recipe_salts ion).C15 ∧ (recipe_salts ion).C18 = 0) ∧
    (0 < ion.SO4 → ion.Mg < ion.SO4 →
      0 < (recipe_salts ion).C18 ∧ (recipe_salts ion).C15 = 0) ∧
    (ion.SO4 = 0 → (recipe_salts ion).C15 = 0 ∧ (recipe_salts ion).C18 = 0) := by
  rcases lt_or_le ion.Mg ion.SO4 with h | h
  · have h18 : (recipe_salts ion).C18 = max 0 ion.SO4 := by
      norm_num [recipe_salts, h]
    have h15 : (recipe_salts ion).C15 = 0 := by
      norm_num [recipe_salts, h]
    refine ⟨fun _ h2 => absurd h (not_lt.mpr h2), fun h1 _ => ?_, fun h0 => ?_⟩
    · exact ⟨by rw [h18]; exact lt_max_of_lt_right h1, h15⟩
    · exact ⟨h15, by rw [h18, h0]; exact max_self 0⟩
  · have h15 : (recipe_salts ion).C15 = max 0 ion.SO4 := by
      norm_num [recipe_salts, not_lt.mpr h]
    have h18 : (recipe_salts ion).C18 = 0 := by
      norm_num [recipe_salts, not_lt.mpr h]
    refine ⟨fun h1 _ => ?_, fun _ h2 => absurd h2 (not_lt.mpr h), fun h0 => ?_⟩
    · exact ⟨by rw [h15]; exact lt_max_of_lt_right h1, h18⟩
    · exact ⟨by rw [h15, h0]; exact max_self 0, h18⟩

/-- Witness for C1 at the concrete ions `ionW1` (SO4 = 1 ≤ Mg = 2):
the MgSO4 molality is positive and the Na2SO4 molality is zero. -/
theorem c1_witness :
    (0 : ℚ) < ionW1.SO4 ∧ ionW1.SO4 ≤ ionW1.Mg ∧
    (0 < (recipe_salts ionW1).C15 ∧ (recipe_salts ionW1).C18 = 0) :=
  ⟨by norm_num [ionW1], by norm_num [ionW1],
    (c1_salt_path_exclusivity ionW1).1 (by norm_num [ionW1]) (by norm_num [ionW1])⟩

/-- Claim C2: `calc_water_mass` returns `(1000·density − tds)/1000` for
`tds_unit = "g/L"`, and `(1000·density − tds·density)/1000` for any other
unit, with no bounds check on the result (a negative output is produced
unchanged, e.g. at density 1, tds 2000). -/
theorem c2_water_mass_formula :
    (∀ density tds : ℚ,
      calc_water_mass density tds "g/L" = (1000 * density - tds) / 1000) ∧
    (∀ (density tds : ℚ) (u : String), u ≠ "g/L" →
      calc_water_mass density tds u = (1000 * density - tds * density) / 1000) ∧
    calc_water_mass 1 2000 "g/L" < 0 := by
  refine ⟨fun d t => ?_, fun d t u hu => ?_, ?_⟩
  · simp [calc_water_mass]
  · simp [calc_water_mass, hu]
  · norm_num [calc_water_mass]

/-- Witness for C2 on the non-"g/L" branch at density 2, tds 3,
unit "g/kgs". -/
theorem c2_witness :
    ("g/kgs" : String) ≠ "g/L" ∧
    calc_water_mass 2 3 "g/kgs" = (1000 * 2 - 3 * 2) / 1000 :=
  ⟨by decide, c2_water_mass_formula.2.1 2 3 "g/kgs" (by decide)⟩

/-- Counterexample to claim C3: at density 1.3, tds 350, unit "g/L" the
code computes 0.95 kgw/L, not approximately 1.2500 — the distance to 1.25
exceeds even a generous 0.1 tolerance.  (Python evaluates the same
formula in binary floating point, landing within 1e-15 of 0.95.) -/
theorem c3_counterexample :
    calc_water_mass (13 / 10) 350 "g/L" = 19 / 20 ∧
    ¬ |calc_water_mass (13 / 10) 350 "g/L" - 1.25| ≤ 1 / 10 := by
  constructor
  · norm_num [calc_water_mass]
  · norm_num [calc_water_mass, abs_le]

/-- Claim C3 as amended: for the end-to-end scenario density 1.3,
tds 350, unit "g/L", the computed water mass is exactly 0.95 kgw/L. -/
theorem c3_water_mass_scenario :
    calc_water_mass (13 / 10) 350 "g/L" = 19 / 20 := by
  norm_num [calc_water_mass]

/-- Counterexample to claim C4: the molar mass the Recipe Builder uses
for hydrated Na2SO4 is the literal constant 322.2, which is not within
±0.001 of 142.04 + 10×18.01528 = 322.1928 (the gap is 0.0072). -/
theorem c4_counterexample :
    D18_sel hydAllHydrated = 322.2 ∧
    ¬ |D18_sel hydAllHydrated - (142.04 + 10 * 18.01528)| ≤ 1 / 1000 := by
  have h18 : D18_sel hydAllHydrated = (322.2 : ℚ) := rfl
  rw [h18]
  norm_num [abs_le]

/-- Claim C4 as amended: the hydrated molar masses of MgCl2, CaCl2 and
MgSO4 equal anhydrous + hydration-number × 18.01528 exactly (and the
first two are within ±0.001 of 203.302 resp. 147.015), while hydrated
Na2SO4 uses the fixed constant 322.2, which is within ±0.008 — but not
±0.001 — of 142.04 + 10×18.01528. -/
theorem c4_hydrated_molar_masses :
    D12_sel hydAllHydrated = 95.211 + 6 * 18.01528 ∧
    |D12_sel hydAllHydrated - 203.302| ≤ 1 / 1000 ∧
    D13_sel hydAllHydrated = 110.984 + 2 * 18.01528 ∧
    |D13_sel hydAllHydrated - 147.015| ≤ 1 / 1000 ∧
    D15_sel hydAllHydrated = 120.366 + 7 * 18.01528 ∧
    D18_sel hydAllHydrated = 322.2 ∧
    |D18_sel hydAllHydrated - (142.04 + 10 * 18.01528)| ≤ 8 / 1000 := by
  have h12 : D12_sel hydAllHydrated = J3 + 6 * Q10 := rfl
  have h13 : D13_sel hydAllHydrated = J6 + 2 * Q10 := rfl
  have h15 : D15_sel hydAllHydrated = J9 + 7 * Q10 := rfl
  have h18 : D18_sel hydAllHydrated = (322.2 : ℚ) := rfl
  rw [h12, h13, h15, h18]
  norm_num [J3, J6, J9, Q10, abs_le]

/-- Claim C5: the boron speciation ratio equals the spec's
numerator/denominator guarded by `den > 1e-30` for every row (absent
fields read as 0), a row with B(OH)3 = 1, B(OH)4⁻ = 1 and all other
species 0 gives ratio 1, and rows whose boron fields are all 0 — or all
absent — give ratio 0. -/
theorem c5_boron_ratio :
    (∀ r : BoronRow, b4b3_ratio r =
      if spec_b4b3_den r > 1e-30 then spec_b4b3_num r / spec_b4b3_den r else 0) ∧
    b4b3_ratio ⟨some 1, some 1, some 0, some 0, some 0, some 0⟩ = 1 ∧
    b4b3_ratio ⟨some 0, some 0, some 0, some 0, some 0, some 0⟩ = 0 ∧
    b4b3_ratio ⟨none, none, none, none, none, none⟩ = 0 := by
  refine ⟨fun r => ?_, ?_, ?_, ?_⟩
  · have hn : r.bOH4.getD 0 + r.mgb.getD 0 + r.cab.getD 0 + r.b3o3.getD 0
        + r.b4o5.getD 0 + r.b4o5.getD 0 = spec_b4b3_num r := by
      simp only [spec_b4b3_num]; ring
    have hd : r.bOH3.getD 0 + r.b3o3.getD 0 + r.b3o3.getD 0 + r.b4o5.getD 0
        + r.b4o5.getD 0 = spec_b4b3_den r := by
      simp only [spec_b4b3_den]; ring
    simp only [b4b3_ratio, hn, hd]
  · norm_num [b4b3_ratio]
  · norm_num [b4b3_ratio]
  · norm_num [b4b3_ratio]

/-- Counterexample to claim C7: the payload `payloadNoBBr` carries every
required field of the input contract as a numeral and `tds_unit`, but
omits `B` and `Br`; the `calculate` route's input stage nevertheless
fails with a missing-field error (`float(d['B'])` raises `KeyError`), so
B and Br are not optional there. -/
theorem c7_counterexample :
    (∀ k ∈ requiredKeys, (payloadNoBBr.num k).isSome) ∧
    payloadNoBBr.tds_unit.isSome ∧
    payloadNoBBr.num "B" = none ∧
    payloadNoBBr.num "Br" = none ∧
    calculate_inputs payloadNoBBr = none := by
  refine ⟨by decide, by decide, by decide, by decide, ?_⟩
  rfl

/-- Claim C7 as amended: the `calculate` route requires `B` and `Br` in
addition to the fourteen required fields; when all of those are present
and numeric, its input stage completes without a missing-field error. -/
theorem c7_b_br_required (d : Payload)
    (hden : (d.num "density").isSome) (htds : (d.num "tds").isSome)
    (hu : d.tds_unit.isSome)
    (hna : (d.num "Na").isSome) (hk : (d.num "K").isSome)
    (hli : (d.num "Li").isSome) (hmg : (d.num "Mg").isSome)
    (hca : (d.num "Ca").isSome) (hso4 : (d.num "SO4").isSome)
    (hb : (d.num "B").isSome) (hbr : (d.num "Br").isSome)
    (hc1 : (d.num "H3BO3_conc").isSome) (hc2 : (d.num "H3BO3_vol").isSome)
    (hc3 : (d.num "sample_vol").isSome) (hc4 : (d.num "NaOH_conc").isSome)
    (hc5 : (d.num "NaOH_vol").isSome) :
    (calculate_inputs d).isSome := by
  obtain ⟨density, hden⟩ := Option.isSome_iff_exists.mp hden
  obtain ⟨tds, htds⟩ := Option.isSome_iff_exists.mp htds
  obtain ⟨u, hu⟩ := Option.isSome_iff_exists.mp hu
  obtain ⟨na, hna⟩ := Option.isSome_iff_exists.mp hna
  obtain ⟨k, hk⟩ := Option.isSome_iff_exists.mp hk
  obtain ⟨li, hli⟩ := Option.isSome_iff_exists.mp hli
  obtain ⟨mg, hmg⟩ := Option.isSome_iff_exists.mp hmg
  obtain ⟨ca, hca⟩ := Option.isSome_iff_exists.mp hca
  obtain ⟨so4, hso4⟩ := Option.isSome_iff_exists.mp hso4
  obtain ⟨b, hb⟩ := Option.isSome_iff_exists.mp hb
  obtain ⟨br, hbr⟩ := Option.isSome_iff_exists.mp hbr
  obtain ⟨v1, hc1⟩ := Option.isSome_iff_exists.mp hc1
  obtain ⟨v2, hc2⟩ := Option.isSome_iff_exists.mp hc2
  obtain ⟨v3, hc3⟩ := Option.isSome_iff_exists.mp hc3
  obtain ⟨v4, hc4⟩ := Option.isSome_iff_exists.mp hc4
  obtain ⟨v5, hc5⟩ := Option.isSome_iff_exists.mp hc5
  simp [calculate_inputs, parse_payload, hden, htds, hu, hna, hk, hli, hmg,
    hca, hso4, hb, hbr, hc1, hc2, hc3, hc4, hc5]

/-- Witness for C7 (amended) at the concrete payload `payloadFull`. -/
theorem c7_witness :
    (payloadFull.num "B").isSome ∧ (calculate_inputs payloadFull).isSome :=
  ⟨by decide,
    c7_b_br_required payloadFull (by decide) (by decide) (by decide) (by decide)
      (by decide) (by decide) (by decide) (by decide) (by decide) (by decide)
      (by decide) (by decide) (by decide) (by decide) (by decide) (by decide)⟩

/-- Claim C8: every one of the seven salt molalities of the Recipe
Builder is non-negative for all ion inputs, and on the Na2SO4 path the
NaCl molality is `max 0 (Na − 2·SO4)` — the raw subtraction clamped at 0.
(`recipe_salts` is a total function: no error is raised for negative
derived quantities.) -/
theorem c8_nonnegative_molalities (ion : IonMolality) :
    0 ≤ (recipe_salts ion).C12 ∧ 0 ≤ (recipe_salts ion).C13 ∧
    0 ≤ (recipe_salts ion).C14 ∧ 0 ≤ (recipe_salts ion).C15 ∧
    0 ≤ (recipe_salts ion).C16 ∧ 0 ≤ (recipe_salts ion).C17 ∧
    0 ≤ (recipe_salts ion).C18 ∧
    (ion.Mg < ion.SO4 →
      (recipe_salts ion).C16 = max 0 (ion.Na - 2 * ion.SO4)) := by
  obtain ⟨na, k, li, mg, ca, so4⟩ := ion
  by_cases h : so4 > mg <;>
    simp [recipe_salts, h, le_max_left, mul_nonneg, le_refl]

/-- Witness for C8 on the Na2SO4 path at the concrete ions `ionW2`
(Na = 1, SO4 = 3): the NaCl molality equals the clamped subtraction. -/
theorem c8_witness :
    ionW2.Mg < ionW2.SO4 ∧
    (recipe_salts ionW2).C16 = max 0 (ionW2.Na - 2 * ionW2.SO4) :=
  ⟨by norm_num [ionW2],
    (c8_nonnegative_molalities ionW2).2.2.2.2.2.2.2 (by norm_num [ionW2])⟩

/-- Claim C9: the salt-molality block duplicated inside the script
generator computes, value for value, the same seven molalities as the
Recipe Builder, for every ion input. -/
theorem c9_duplicated_salt_logic (ion : IonMolality) :
    recipe_salts ion = phreeqc_salts ion := rfl

/-- Claim C10: for every input, the script generator returns the fixed
step count 20 and its base block runs in 20 steps (the acid block in 1);
acid and base amounts are (concentration × volume) / kgw_in_aliquot with
`kgw_in_aliquot = sample_vol × water_mass / 1000`, and the diluent-water
ratios are 55.5556 / concentration.  Independence of the input volumes
and of the (absent) step-size parameter is expressed by the universal
quantification. -/
theorem c10_script_normalization (ion : IonMolality) (params : PhreeqcParams)
    (wm : ℚ) :
    (build_phreeqc_input ion params wm).2 = 20 ∧
    (build_phreeqc_input ion params wm).1.base_steps = 20 ∧
    (build_phreeqc_input ion params wm).1.acid_steps = 1 ∧
    (build_phreeqc_input ion params wm).1.acid_amount
      = params.H3BO3_conc * params.H3BO3_vol / (params.sample_vol * wm / 1000) ∧
    (build_phreeqc_input ion params wm).1.base_amount
      = params.NaOH_conc * params.NaOH_vol / (params.sample_vol * wm / 1000) ∧
    (build_phreeqc_input ion params wm).1.acid_h2o = 55.5556 / params.H3BO3_conc ∧
    (build_phreeqc_input ion params wm).1.base_h2o = 55.5556 / params.NaOH_conc :=
  ⟨rfl, rfl, rfl, rfl, rfl, rfl, rfl⟩


/-! ## Claim C6: the titration classification -/

/-- The collecting phase of the classifier in isolation: with the two
skip rows consumed, every further row appends a point at the advanced
cumulative volume `round(vol + step, 8)`. -/
def buildPts (step_ml : ℚ) : ℚ → List OutRow → List TitrationPoint
  | _, [] => []
  | vol, r :: rest =>
    let v := roundTo 8 (vol + step_ml)
    mkPoint v r :: buildPts step_ml v rest

/-- The cumulative-volume sequence of the collecting phase. -/
def volsFrom (step_ml : ℚ) : ℚ → ℕ → List ℚ
  | _, 0 => []
  | vol, k + 1 =>
    let v := roundTo 8 (vol + step_ml)
    v :: volsFrom step_ml v k

/-- Unfolding equation of `classifyAux` on a cons cell. -/
theorem classifyAux_cons (step_ml : ℚ) (r : OutRow) (rest : List OutRow)
    (rc : ℕ) (vol : ℚ) :
    classifyAux step_ml (r :: rest) rc vol =
      if r.state = "i_soln" then classifyAux step_ml rest rc vol
      else if r.state = "react" then
        if rc + 1 ≤ 2 then classifyAux step_ml rest (rc + 1) vol
        else mkPoint (roundTo 8 (vol + step_ml)) r
          :: classifyAux step_ml rest (rc + 1) (roundTo 8 (vol + step_ml))
      else classifyAux step_ml rest rc vol := rfl

/-- Unfolding equation of `buildPts` on a cons cell. -/
theorem buildPts_cons (step_ml vol : ℚ) (r : OutRow) (rest : List OutRow) :
    buildPts step_ml vol (r :: rest) =
      mkPoint (roundTo 8 (vol + step_ml)) r
        :: buildPts step_ml (roundTo 8 (vol + step_ml)) rest := rfl

/-- Unfolding equation of `volsFrom` on a successor. -/
theorem volsFrom_succ (step_ml vol : ℚ) (k : ℕ) :
    volsFrom step_ml vol (k + 1) =
      roundTo 8 (vol + step_ml)
        :: volsFrom step_ml (roundTo 8 (vol + step_ml)) k := rfl

/-- Rounding to 8 decimals is the identity on exact multiples of 1e-8. -/
theorem roundTo8_natMul (m : ℕ) :
    roundTo 8 ((m : ℚ) / 10 ^ 8) = (m : ℚ) / 10 ^ 8 := by
  unfold roundTo
  rw [div_mul_cancel₀ _ (by norm_num : ((10 : ℚ) ^ 8) ≠ 0), round_natCast]
  norm_num

/-- Once the reaction counter has reached 2, the classifier on a run of
`react` rows is exactly the collecting phase. -/
theorem classifyAux_collect (step_ml : ℚ) (rs : List OutRow)
    (hrs : ∀ r ∈ rs, r.state = "react") :
    ∀ rc : ℕ, 2 ≤ rc → ∀ vol : ℚ,
      classifyAux step_ml rs rc vol = buildPts step_ml vol rs := by
  induction rs with
  | nil => intro rc _ vol; rfl
  | cons r rest ih =>
    intro rc hrc vol
    have hr : r.state = "react" := hrs r (by simp)
    have hrest : ∀ x ∈ rest, x.state = "react" := fun x hx => hrs x (by simp [hx])
    rw [classifyAux_cons, if_neg (by rw [hr]; decide), if_pos hr,
      if_neg (by omega : ¬ rc + 1 ≤ 2), buildPts_cons]
    exact congrArg _ (ih hrest (rc + 1) (by omega) _)

/-- The cumulative volumes of the collecting phase. -/
theorem buildPts_vols (step_ml : ℚ) :
    ∀ (rs : List OutRow) (vol : ℚ),
      (buildPts step_ml vol rs).map TitrationPoint.v_naoh
        = volsFrom step_ml vol rs.length := by
  intro rs
  induction rs with
  | nil => intro vol; rfl
  | cons r rest ih =>
    intro vol
    rw [buildPts_cons, List.map_cons, List.length_cons, volsFrom_succ]
    exact congrArg _ (ih _)

/-- When the step is an exact multiple of 1e-8 and the running volume is
too, the 8-decimal rounding never fires and the volumes are the exact
running sums. -/
theorem volsFrom_exact (n : ℕ) :
    ∀ k m : ℕ,
      volsFrom ((n : ℚ) / 10 ^ 8) ((m : ℚ) / 10 ^ 8) k
        = (List.range k).map
            (fun i : ℕ => ((m : ℚ) + ((i : ℚ) + 1) * n) / 10 ^ 8) := by
  intro k
  induction k with
  | zero => intro m; rfl
  | succ k ih =>
    intro m
    have hv : roundTo 8 ((m : ℚ) / 10 ^ 8 + (n : ℚ) / 10 ^ 8)
        = ((m + n : ℕ) : ℚ) / 10 ^ 8 := by
      rw [div_add_div_same, ← Nat.cast_add, roundTo8_natMul]
    rw [volsFrom_succ, hv, ih (m + n), List.range_succ_eq_map]
    rw [List.map_cons, List.map_map]
    refine congrArg₂ _ (by push_cast; ring) ?_
    refine List.map_congr_left fun i _ => ?_
    simp only [Function.comp]
    push_cast
    ring

/-- Claim C6: on a solver output of exactly 1 `i_soln` row, then 2
`react` rows, then 20 `react` rows, the classifier returns exactly 20
titration points; their cumulative volumes are the running sums
(i+1)·(base volume / 20), strictly increasing, with every consecutive
increment equal to base volume / 20.  The hypothesis `hstep` states that
the per-step volume is an exact positive multiple of 1e-8, so that the
8-decimal rounding of the running sum (which the code applies at every
step) is the identity. -/
theorem c6_titration_classification
    (r0 : OutRow) (pre post : List OutRow)
    (h0 : r0.state = "i_soln")
    (hpre2 : pre.length = 2)
    (hpre : ∀ r ∈ pre, r.state = "react")
    (hpost20 : post.length = 20)
    (hpost : ∀ r ∈ post, r.state = "react")
    (base_vol : ℚ) (n : ℕ) (hn : 0 < n)
    (hstep : base_vol / 20 = (n : ℚ) / 10 ^ 8) :
    (classify (base_vol / 20) (r0 :: (pre ++ post))).length = 20 ∧
    (classify (base_vol / 20) (r0 :: (pre ++ post))).map TitrationPoint.v_naoh
      = (List.range 20).map (fun i : ℕ => ((i : ℚ) + 1) * (base_vol / 20)) ∧
    List.Pairwise (fun p q => p.v_naoh < q.v_naoh)
      (classify (base_vol / 20) (r0 :: (pre ++ post))) ∧
    (∀ (i : ℕ) (p q : TitrationPoint),
      (classify (base_vol / 20) (r0 :: (pre ++ post)))[i]? = some p →
      (classify (base_vol / 20) (r0 :: (pre ++ post)))[i + 1]? = some q →
      q.v_naoh - p.v_naoh = base_vol / 20) := by
  obtain ⟨a, b, rfl⟩ := List.length_eq_two.mp hpre2
  have ha : a.state = "react" := hpre a (by simp)
  have hb : b.state = "react" := hpre b (by simp)
  have hmain : classify (base_vol / 20) (r0 :: ([a, b] ++ post))
      = buildPts (base_vol / 20) 0 post := by
    rw [classify, show r0 :: ([a, b] ++ post) = r0 :: a :: b :: post from rfl]
    rw [classifyAux_cons, if_pos h0]
    rw [classifyAux_cons, if_neg (by rw [ha]; decide), if_pos ha,
      if_pos (by norm_num)]
    rw [classifyAux_cons, if_neg (by rw [hb]; decide), if_pos hb,
      if_pos (by norm_num)]
    exact classifyAux_collect (base_vol / 20) post hpost 2 le_rfl 0
  have hvols : (classify (base_vol / 20) (r0 :: ([a, b] ++ post))).map
      TitrationPoint.v_naoh
      = (List.range 20).map (fun i : ℕ => ((i : ℚ) + 1) * (base_vol / 20)) := by
    rw [hmain, buildPts_vols, hpost20, hstep]
    rw [show (0 : ℚ) = ((0 : ℕ) : ℚ) / 10 ^ 8 by norm_num]
    rw [volsFrom_exact]
    refine List.map_congr_left fun i _ => ?_
    push_cast
    ring
  have hstep_pos : 0 < base_vol / 20 := by
    rw [hstep]
    exact div_pos (by exact_mod_cast hn) (by norm_num)
  have hlen : (classify (base_vol / 20) (r0 :: ([a, b] ++ post))).length = 20 := by
    have := congrArg List.length hvols
    simpa using this
  refine ⟨hlen, hvols, ?_, ?_⟩
  · refine List.pairwise_map.mp ?_
    rw [hvols]
    refine List.pairwise_map.mpr ?_
    exact (List.pairwise_lt_range 20).imp fun hab =>
      mul_lt_mul_of_pos_right (by exact_mod_cast Nat.succ_lt_succ hab) hstep_pos
  · intro i p q hp hq
    obtain ⟨hq_len0, _⟩ := List.getElem?_eq_some_iff.mp hq
    rw [hlen] at hq_len0
    have hpv : p.v_naoh = ((i : ℚ) + 1) * (base_vol / 20) := by
      have e1 : (List.map TitrationPoint.v_naoh
          (classify (base_vol / 20) (r0 :: ([a, b] ++ post))))[i]?
          = some p.v_naoh := by
        rw [List.getElem?_map, hp]
        rfl
      rw [hvols, List.getElem?_map,
        List.getElem?_range (by omega : i < 20)] at e1
      simp only [Option.map_some'] at e1
      exact (Option.some.inj e1).symm
    have hqv : q.v_naoh = (((i : ℚ) + 1) + 1) * (base_vol / 20) := by
      have e2 : (List.map TitrationPoint.v_naoh
          (classify (base_vol / 20) (r0 :: ([a, b] ++ post))))[i + 1]?
          = some q.v_naoh := by
        rw [List.getElem?_map, hq]
        rfl
      rw [hvols, List.getElem?_map, List.getElem?_range hq_len0] at e2
      simp only [Option.map_some'] at e2
      have e3 := (Option.some.inj e2).symm
      rw [e3]
      push_cast
      ring
    rw [hpv, hqv]
    ring

/-- A concrete `i_soln` row with no numeric columns. -/
def rowI : OutRow := ⟨"i_soln", none, ⟨none, none, none, none, none, none⟩⟩

/-- A concrete `react` row (pH 7, no boron columns). -/
def rowR : OutRow := ⟨"react", some 7, ⟨none, none, none, none, none, none⟩⟩

/-- Witness for C6 at base volume 2 mL (step 0.1 = 10^7·1e-8), one
`i_soln` row, two skip rows and twenty retained rows. -/
theorem c6_witness :
    0 < 10 ^ 7 ∧
    (classify ((2 : ℚ) / 20)
      (rowI :: ([rowR, rowR] ++ List.replicate 20 rowR))).length = 20 ∧
    List.Pairwise (fun p q => p.v_naoh < q.v_naoh)
      (classify ((2 : ℚ) / 20)
        (rowI :: ([rowR, rowR] ++ List.replicate 20 rowR))) := by
  have h := c6_titration_classification rowI [rowR, rowR]
    (List.replicate 20 rowR) rfl rfl
    (by intro r hr; simp only [List.mem_cons, List.not_mem_nil, or_false] at hr
        rcases hr with rfl | rfl <;> rfl)
    (by simp)
    (fun r hr => by rw [List.eq_of_mem_replicate hr]; rfl)
    2 (10 ^ 7) (by norm_num) (by norm_num)
  exact ⟨by norm_num, h.1, h.2.2.1⟩

end HyperSalineBuffer
